import Mathlib

/-!
Verification development for the BoilerJuice Home Assistant add-on
(`app/scraper.py`, `app/server.py`).

The Python source is shallowly embedded: page text is a `List Char`,
Python floats are idealised as rationals (`ℚ`), Python's `round`
(banker's rounding, round-half-to-even) is `pyRound`, dictionaries are
association lists with unique keys.  Each definition below names the
source function it embeds.
-/

namespace BoilerJuice

/-- Executable floor of a rational (numerator floor-divided by the
positive denominator). -/
def ratFloor (x : ℚ) : ℤ := x.num.fdiv x.den

/-- Python's built-in `round(x, ndigits)` idealised over `ℚ`:
round half to even at `ndigits` decimal places. -/
def roundHalfEven (x : ℚ) : ℤ :=
  if x - ratFloor x < 1/2 then ratFloor x
  else if 1/2 < x - ratFloor x then ratFloor x + 1
  else if ratFloor x % 2 = 0 then ratFloor x else ratFloor x + 1

/-- Python `round(x, n)` for `n ≥ 0` decimal digits, over `ℚ`. -/
def pyRound (ndigits : ℕ) (x : ℚ) : ℚ :=
  (roundHalfEven (x * 10 ^ ndigits) : ℚ) / 10 ^ ndigits

/-- Lower-casing of page text, `html.lower()` in `scraper.py` (ASCII
letters, as Lean's `Char.toLower`). -/
def lowerStr (s : List Char) : List Char := s.map Char.toLower

/-- Python's substring test `needle in hay` on strings. -/
def hasSub (needle : List Char) : List Char → Bool
  | [] => needle.isEmpty
  | c :: rest => needle.isPrefixOf (c :: rest) || hasSub needle rest

/-- `CAPTCHA_INDICATORS`, scraper.py line 42. -/
def CAPTCHA_INDICATORS : List (List Char) :=
  ["human verification".toList, "captcha".toList, "awswaf".toList,
   "confirm you are human".toList]

/-- `LOGIN_INDICATORS`, scraper.py line 43. -/
def LOGIN_INDICATORS : List (List Char) :=
  ["user[email]".toList, "user[password]".toList, "log in".toList,
   "sign in".toList]

/-- `TANK_INDICATORS`, scraper.py line 44. -/
def TANK_INDICATORS : List (List Char) :=
  ["tank".toList, "litres".toList, "oil".toList, "capacity".toList,
   "usable".toList]

/-- `BoilerJuiceScraper._detect_page_type`, scraper.py lines 199-208:
lower-case the html, then check the three indicator sets in order
captcha, login, tank; otherwise "unknown". -/
def detect_page_type (html : List Char) : String :=
  let hl := lowerStr html
  if CAPTCHA_INDICATORS.any (fun ind => hasSub ind hl) then "captcha"
  else if LOGIN_INDICATORS.any (fun ind => hasSub ind hl) then "login"
  else if TANK_INDICATORS.any (fun ind => hasSub ind hl) then "tank"
  else "unknown"

/-- `TankData`, scraper.py lines 47-81 (the `timestamp` field, a wall
clock reading, is omitted from the embedding). -/
structure TankData where
  litres : ℚ
  percent : ℚ
  capacity : ℚ
  level_name : String
deriving DecidableEq, Repr

/-- Step 5 of `_extract_tank_data`, scraper.py line 657: the final
capacity prefers a positive user-configured value over the scraped one. -/
def finalCapacity (user_capacity scraped_capacity : ℚ) : ℚ :=
  if user_capacity > 0 then user_capacity else scraped_capacity

/-- scraper.py lines 663-664: `if not litres and percent > 0 and
capacity > 0: litres = round(capacity * percent / 100, 1)`. -/
def derivedLitres (capacity percent litres : ℚ) : ℚ :=
  if litres = 0 ∧ percent > 0 ∧ capacity > 0 then
    pyRound 1 (capacity * percent / 100)
  else litres

/-- scraper.py lines 667-668: `if not percent and litres > 0 and
capacity > 0: percent = round(litres / capacity * 100, 1)` (applied to
the already-updated litres). -/
def derivedPercent (capacity percent litres : ℚ) : ℚ :=
  if percent = 0 ∧ litres > 0 ∧ capacity > 0 then
    pyRound 1 (litres / capacity * 100)
  else percent

/-- scraper.py lines 671-672: `if not capacity and litres > 0 and
percent > 0: capacity = round(litres / (percent / 100), 0)` (applied to
the already-updated litres and percent). -/
def derivedCapacity (capacity percent litres : ℚ) : ℚ :=
  if capacity = 0 ∧ litres > 0 ∧ percent > 0 then
    pyRound 0 (litres / (percent / 100))
  else capacity

/-- Steps 5 and the success check of `_extract_tank_data`, scraper.py
lines 655-694: taking the values scraped in steps 1-4 (`percent0`,
`litres0`, `scraped_capacity`, each `0` when absent, matching
`data.get(key, 0)`) and the caller-supplied `user_capacity`, derive the
missing quantities sequentially and return a `TankData` exactly when
`litres > 0 or percent > 0`, else `None`. -/
def extract_tank_data_final (user_capacity percent0 litres0 scraped_capacity : ℚ) :
    Option TankData :=
  let capacity := finalCapacity user_capacity scraped_capacity
  let litres := derivedLitres capacity percent0 litres0
  let percent := derivedPercent capacity percent0 litres
  let capacity2 := derivedCapacity capacity percent litres
  if litres > 0 ∨ percent > 0 then
    some { litres := litres, percent := percent, capacity := capacity2,
           level_name :=
             if percent ≥ 60 then "High"
             else if percent ≥ 30 then "Medium"
             else "Low" }
  else none

/-- The level-band function implicit in scraper.py lines 679-684. -/
def level_name_of (percent : ℚ) : String :=
  if percent ≥ 60 then "High"
  else if percent ≥ 30 then "Medium"
  else "Low"

/-- `BoilerJuiceScraper._save_history`, scraper.py lines 700-719:
append the new reading, then keep only the last 500 entries
(`history = history[-500:]` when the length exceeds 500). -/
def save_history (history : List TankData) (m : TankData) : List TankData :=
  let h := history ++ [m]
  if h.length > 500 then h.drop (h.length - 500) else h

/-- Result discriminator of `auth_fill_login`, scraper.py lines 322-398:
the CAPTCHA-detected failure, the not-on-login-page failure (carrying the
detected page type), or a submission whose `logged_in` flag records the
post-submit re-classification. -/
inductive AuthFillResult where
  | challengeUnresolved
  | unexpectedPage (detected : String)
  | submitted (logged_in : Bool)
deriving DecidableEq, Repr

/-- Outcome of `auth_fill_login` together with whether `_save_cookies`
was reached on that path. -/
structure AuthFillOutcome where
  result : AuthFillResult
  cookiesSaved : Bool
deriving DecidableEq, Repr

/-- `BoilerJuiceScraper.auth_fill_login`, scraper.py lines 322-398,
as a function of the page html before filling and the page html after
submit (the Selenium field-filling, click and sleep effects are
collapsed; cookie saving is recorded as a flag).  `logged_in` is
`new_type not in ("captcha", "login")`. -/
def auth_fill_login (html newHtml : List Char) : AuthFillOutcome :=
  let page_type := detect_page_type html
  if page_type = "captcha" then
    { result := .challengeUnresolved, cookiesSaved := false }
  else if page_type ≠ "login" then
    { result := .unexpectedPage page_type, cookiesSaved := false }
  else
    { result := .submitted
        (!(detect_page_type newHtml == "captcha" || detect_page_type newHtml == "login")),
      cookiesSaved := true }

/-- Exact decimal value captured by one regex number group,
`mantissa / 10 ^ exp`; the embedding of Python's
`float(m.group(1))` for a group matching `\d+(?:\.\d+)?`. -/
abbrev DecNum := ℕ × ℕ

/-- Rational value of a captured decimal number. -/
def decNumVal (v : DecNum) : ℚ := (v.1 : ℚ) / 10 ^ v.2

/-- Numeric value of a digit string (most significant first). -/
def natOfDigits (ds : List Char) : ℕ :=
  ds.foldl (fun a c => 10 * a + (c.toNat - 48)) 0

/-- Python's `\s` on the page text (ASCII whitespace). -/
def isPySpace (c : Char) : Bool :=
  c = ' ' || c = '\t' || c = '\n' || c = '\r' ||
  c = Char.ofNat 11 || c = Char.ofNat 12

/-- Greedy match of `(\d+(?:\.\d+)?)` at the head of `s`, returning the
captured number and the remaining text.  For these patterns greedy
matching needs no backtracking: shortening `\d+` leaves a digit as the
next character, on which neither `\.`, `\s` nor a literal can match. -/
def matchNumAt (s : List Char) : Option (DecNum × List Char) :=
  let ds := s.takeWhile Char.isDigit
  if ds.isEmpty then none
  else
    let rest := s.drop ds.length
    match rest with
    | '.' :: r2 =>
      let fs := r2.takeWhile Char.isDigit
      if fs.isEmpty then some ((natOfDigits ds, 0), rest)
      else some ((natOfDigits ds * 10 ^ fs.length + natOfDigits fs, fs.length),
                 r2.drop fs.length)
    | _ => some ((natOfDigits ds, 0), rest)

/-- Match attempt, at one position, of percent patterns 1 and 3 of
`_extract_tank_data` (scraper.py lines 516 and 518):
`(\d+(?:\.\d+)?)\s*%\s*(?:full|level|remaining)?` and
`(\d+(?:\.\d+)?)\s*%`.  The trailing `\s*(?:full|level|remaining)?` of
pattern 1 is entirely optional, so both patterns match at exactly the
same positions with exactly the same group, and share one embedding. -/
def percentSignAt (s : List Char) : Option DecNum :=
  match matchNumAt s with
  | none => none
  | some (v, rest) =>
    match rest.dropWhile isPySpace with
    | '%' :: _ => some v
    | _ => none

/-- Alternation head `(?:level|percentage|percent)` of percent pattern 2
(scraper.py line 517), tried in the regex's left-to-right order; returns
the text after the keyword.  A `percent` prefix of the word
`percentage` is never completed by `[:\s]+`, so no backtracking between
alternatives is possible. -/
def keywordAt (s : List Char) : Option (List Char) :=
  if "level".toList.isPrefixOf s then some (s.drop 5)
  else if "percentage".toList.isPrefixOf s then some (s.drop 10)
  else if "percent".toList.isPrefixOf s then some (s.drop 7)
  else none

/-- Match attempt, at one position, of percent pattern 2 of
`_extract_tank_data` (scraper.py line 517):
`(?:level|percentage|percent)[:\s]+(\d+(?:\.\d+)?)`. -/
def levelKeywordAt (s : List Char) : Option DecNum :=
  match keywordAt s with
  | none => none
  | some rest =>
    let seps := rest.takeWhile (fun c => c = ':' || isPySpace c)
    if seps.isEmpty then none
    else
      match matchNumAt (rest.drop seps.length) with
      | some (v, _) => some v
      | none => none

/-- Python's `re.search`: try the pattern at each position of the text,
left to right, and return the first (leftmost) match's group. -/
def reSearch (f : List Char → Option DecNum) : List Char → Option DecNum
  | [] => f []
  | c :: rest =>
    match f (c :: rest) with
    | some v => some v
    | none => reSearch f rest

/-- Acceptance guard `0 < val <= 100` of scraper.py line 524, stated on
the exact decimal representation (`0 < m/10^e ≤ 100` iff
`0 < m ∧ m ≤ 100·10^e`; the equivalence is proved in
`decGuard_iff`). -/
def decGuard (v : DecNum) : Bool :=
  0 < v.1 && v.1 ≤ 100 * 10 ^ v.2

/-- One iteration of the pattern loop of scraper.py lines 520-527: take
the pattern's first match, accept it if its value is in `(0, 100]`
(then `break`), otherwise move to the next pattern. -/
def tryPct (pat : List Char → Option DecNum) (t : List Char) : Option DecNum :=
  match reSearch pat t with
  | some v => if decGuard v then some v else none
  | none => none

/-- The percent text fallback of `_extract_tank_data`, scraper.py lines
513-527: the three patterns in order (`re.IGNORECASE` is embedded by
lower-casing the text, which fixes every non-letter character the
patterns mention), first accepted value wins. -/
def extract_percent_from_text (text : List Char) : Option DecNum :=
  let t := lowerStr text
  match tryPct percentSignAt t with
  | some v => some v
  | none =>
    match tryPct levelKeywordAt t with
    | some v => some v
    | none => tryPct percentSignAt t

/-- Values stored in the configuration JSON object, server.py. -/
inductive JVal where
  | str (s : String)
  | bool (b : Bool)
  | num (n : ℚ)
  | null
deriving DecidableEq, Repr

/-- A JSON object (Python dict) as an association list with unique
keys; insertion order is preserved as dicts preserve it. -/
abbrev Config := List (String × JVal)

/-- Python `d.get(key)` (`None` when absent). -/
def cfgGet : Config → String → Option JVal
  | [], _ => none
  | (k, v) :: rest, key => if k = key then some v else cfgGet rest key

/-- Python `d[key] = v`: replace in place, or append a new key. -/
def cfgSet : Config → String → JVal → Config
  | [], key, v => [(key, v)]
  | (k, w) :: rest, key, v =>
    if k = key then (k, v) :: rest else (k, w) :: cfgSet rest key v

/-- Python `d.pop(key, None)`, dropping the key if present. -/
def cfgPop : Config → String → Config
  | [], _ => []
  | (k, w) :: rest, key => if k = key then rest else (k, w) :: cfgPop rest key

/-- Python truthiness of `d.get(key)` for JSON values. -/
def truthy : Option JVal → Bool
  | none => false
  | some (.str s) => !(s == "")
  | some (.bool b) => b
  | some (.num n) => decide (n ≠ 0)
  | some .null => false

/-- `api_get_config`, server.py lines 125-134: copy the config, set
`has_password`, pop `password` and `mqtt_password`, set
`has_mqtt_password` when an MQTT password is truthy, and set
`success = True`. -/
def api_get_config (config : Config) : Config :=
  let masked := cfgSet config "has_password" (.bool (truthy (cfgGet config "password")))
  let masked := cfgPop masked "password"
  let masked := cfgPop masked "mqtt_password"
  let masked :=
    if truthy (cfgGet config "mqtt_password") then
      cfgSet masked "has_mqtt_password" (.bool true)
    else masked
  cfgSet masked "success" (.bool true)

/-- What the environment does to one iteration of `auto_refresh_loop`
(server.py lines 271-306): a normal pass through the body with the
configured interval, tank id and fetch outcome, or a raised
`asyncio.CancelledError`, or any other raised exception. -/
inductive PollEvent where
  | normal (interval : ℚ) (tank_id : String) (fetch_success : Bool)
  | cancelled
  | failure
deriving DecidableEq, Repr

/-- What the loop does after one iteration: sleep and continue, or
break out of `while True`. -/
inductive LoopAction where
  | continueAfter (sleepSeconds : ℚ)
  | stop
deriving DecidableEq, Repr

/-- One iteration of `auto_refresh_loop`, server.py lines 273-306:
non-positive interval or missing tank id sleep 60 s and continue; a
normal fetch (successful or not) sleeps `interval * 60`;
`asyncio.CancelledError` breaks the loop; any other exception is caught,
logged and followed by a 300 s backoff sleep. -/
def auto_refresh_step : PollEvent → LoopAction
  | .normal interval tank_id _ =>
    if interval ≤ 0 then .continueAfter 60
    else if tank_id = "" then .continueAfter 60
    else .continueAfter (interval * 60)
  | .cancelled => .stop
  | .failure => .continueAfter 300

/-- Number of iterations the loop executes when the environment
produces the given sequence of events: every event is processed until
one makes the loop stop. -/
def auto_refresh_iterations : List PollEvent → ℕ
  | [] => 0
  | e :: rest =>
    match auto_refresh_step e with
    | .stop => 1
    | .continueAfter _ => 1 + auto_refresh_iterations rest

/-! ## Helper lemmas -/

/-- The acceptance guard on the exact decimal representation agrees with
the source's `0 < val <= 100` on the rational value. -/
theorem decGuard_iff (v : DecNum) :
    decGuard v = true ↔ (0 < decNumVal v ∧ decNumVal v ≤ 100) := by
  obtain ⟨m, e⟩ := v
  have hpow : (0 : ℚ) < 10 ^ e := by positivity
  simp only [decGuard, decNumVal, Bool.and_eq_true, decide_eq_true_eq]
  constructor
  · rintro ⟨h1, h2⟩
    refine ⟨div_pos (by exact_mod_cast h1) hpow, ?_⟩
    rw [div_le_iff₀ hpow]
    calc ((m : ℕ) : ℚ) ≤ ((100 * 10 ^ e : ℕ) : ℚ) := by exact_mod_cast h2
      _ = 100 * 10 ^ e := by push_cast; ring
  · rintro ⟨h1, h2⟩
    constructor
    · rcases Nat.eq_zero_or_pos m with hm | hm
      · subst hm; simp at h1
      · exact hm
    · rw [div_le_iff₀ hpow] at h2
      have : ((m : ℕ) : ℚ) ≤ ((100 * 10 ^ e : ℕ) : ℚ) := by push_cast; linarith
      exact_mod_cast this

/-- Every value delivered by one pattern attempt passed the guard. -/
theorem tryPct_sound (pat : List Char → Option DecNum) (t : List Char) (v : DecNum)
    (h : tryPct pat t = some v) : decGuard v = true := by
  unfold tryPct at h
  cases hr : reSearch pat t with
  | none => rw [hr] at h; simp at h
  | some w =>
    rw [hr] at h
    dsimp only at h
    by_cases hg : decGuard w = true
    · rw [if_pos hg] at h
      injection h with h2
      subst h2
      exact hg
    · rw [if_neg hg] at h
      simp at h

/-- Closed form of `save_history`: drop the overflow from the front and
put the new measurement last. -/
theorem save_history_eq (h : List TankData) (m : TankData) :
    save_history h m = h.drop (h.length + 1 - 500) ++ [m] := by
  unfold save_history
  simp only [List.length_append, List.length_singleton]
  split_ifs with hl
  · exact List.drop_append_of_le_length (by omega)
  · rw [Nat.sub_eq_zero_of_le (by omega)]
    rfl

/-- One append never leaves more than 500 entries. -/
theorem save_history_length_le (h : List TankData) (m : TankData) :
    (save_history h m).length ≤ 500 := by
  rw [save_history_eq]
  simp only [List.length_append, List.length_drop, List.length_singleton]
  omega

/-- Unfolding step: lookup on a cons cell. -/
theorem cfgGet_cons (k0 : String) (v0 : JVal) (tl : Config) (k : String) :
    cfgGet ((k0, v0) :: tl) k = if k0 = k then some v0 else cfgGet tl k := rfl

/-- Unfolding step: update hitting the head key. -/
theorem cfgSet_cons_eq (k0 : String) (v0 : JVal) (tl : Config) (v : JVal) :
    cfgSet ((k0, v0) :: tl) k0 v = (k0, v) :: tl := by
  simp [cfgSet]

/-- Unfolding step: update passing over the head key. -/
theorem cfgSet_cons_ne (k0 : String) (v0 : JVal) (tl : Config) (k : String) (v : JVal)
    (h : k0 ≠ k) : cfgSet ((k0, v0) :: tl) k v = (k0, v0) :: cfgSet tl k v := by
  simp [cfgSet, h]

/-- Unfolding step: removal hitting the head key. -/
theorem cfgPop_cons_eq (k0 : String) (v0 : JVal) (tl : Config) :
    cfgPop ((k0, v0) :: tl) k0 = tl := by
  simp [cfgPop]

/-- Unfolding step: removal passing over the head key. -/
theorem cfgPop_cons_ne (k0 : String) (v0 : JVal) (tl : Config) (k : String)
    (h : k0 ≠ k) : cfgPop ((k0, v0) :: tl) k = (k0, v0) :: cfgPop tl k := by
  simp [cfgPop, h]

/-- Dictionary update: reading the written key. -/
theorem cfgGet_cfgSet_self (c : Config) (k : String) (v : JVal) :
    cfgGet (cfgSet c k v) k = some v := by
  induction c with
  | nil => simp [cfgSet, cfgGet]
  | cons hd tl ih =>
    obtain ⟨k0, v0⟩ := hd
    by_cases hk : k0 = k
    · subst hk
      rw [cfgSet_cons_eq, cfgGet_cons, if_pos rfl]
    · rw [cfgSet_cons_ne k0 v0 tl k v hk, cfgGet_cons, if_neg hk]
      exact ih

/-- Dictionary update: reading any other key is unchanged. -/
theorem cfgGet_cfgSet_ne (c : Config) (k : String) (v : JVal) (k' : String)
    (h : k ≠ k') : cfgGet (cfgSet c k v) k' = cfgGet c k' := by
  induction c with
  | nil =>
    have h' : ¬ k = k' := h
    simp [cfgSet, cfgGet, h']
  | cons hd tl ih =>
    obtain ⟨k0, v0⟩ := hd
    by_cases hk : k0 = k
    · subst hk
      rw [cfgSet_cons_eq, cfgGet_cons, cfgGet_cons, if_neg h, if_neg h]
    · rw [cfgSet_cons_ne k0 v0 tl k v hk, cfgGet_cons, cfgGet_cons, ih]

/-- Dictionary removal: reading any other key is unchanged. -/
theorem cfgGet_cfgPop_ne (c : Config) (k k' : String) (h : k ≠ k') :
    cfgGet (cfgPop c k) k' = cfgGet c k' := by
  induction c with
  | nil => simp [cfgPop]
  | cons hd tl ih =>
    obtain ⟨k0, v0⟩ := hd
    by_cases hk : k0 = k
    · subst hk
      rw [cfgPop_cons_eq, cfgGet_cons, if_neg h]
    · rw [cfgPop_cons_ne k0 v0 tl k hk, cfgGet_cons, cfgGet_cons, ih]

/-- Lookup of an absent key. -/
theorem cfgGet_eq_none_of_not_mem (c : Config) (k : String)
    (h : k ∉ c.map Prod.fst) : cfgGet c k = none := by
  induction c with
  | nil => rfl
  | cons hd tl ih =>
    obtain ⟨k0, v0⟩ := hd
    simp only [List.map_cons, List.mem_cons, not_or] at h
    rw [cfgGet_cons, if_neg (fun hh => h.1 hh.symm)]
    exact ih h.2

/-- With unique keys, removal really removes the key. -/
theorem cfgGet_cfgPop_self (c : Config) (k : String)
    (h : (c.map Prod.fst).Nodup) : cfgGet (cfgPop c k) k = none := by
  induction c with
  | nil => rfl
  | cons hd tl ih =>
    obtain ⟨k0, v0⟩ := hd
    simp only [List.map_cons, List.nodup_cons] at h
    by_cases hk : k0 = k
    · subst hk
      rw [cfgPop_cons_eq]
      exact cfgGet_eq_none_of_not_mem tl k0 h.1
    · rw [cfgPop_cons_ne k0 v0 tl k hk, cfgGet_cons, if_neg hk]
      exact ih h.2

/-- Keys after an update come from the old keys or are the new key. -/
theorem mem_keys_cfgSet (c : Config) (k : String) (v : JVal) (x : String)
    (h : x ∈ (cfgSet c k v).map Prod.fst) : x ∈ c.map Prod.fst ∨ x = k := by
  induction c with
  | nil => simpa [cfgSet] using h
  | cons hd tl ih =>
    obtain ⟨k0, v0⟩ := hd
    by_cases hk : k0 = k
    · subst hk
      rw [cfgSet_cons_eq] at h
      simp only [List.map_cons, List.mem_cons] at h ⊢
      tauto
    · rw [cfgSet_cons_ne k0 v0 tl k v hk] at h
      simp only [List.map_cons, List.mem_cons] at h ⊢
      rcases h with h | h
      · exact Or.inl (Or.inl h)
      · rcases ih h with h' | h'
        · exact Or.inl (Or.inr h')
        · exact Or.inr h'

/-- Updates keep the keys unique. -/
theorem nodup_cfgSet (c : Config) (k : String) (v : JVal)
    (h : (c.map Prod.fst).Nodup) : ((cfgSet c k v).map Prod.fst).Nodup := by
  induction c with
  | nil => simp [cfgSet]
  | cons hd tl ih =>
    obtain ⟨k0, v0⟩ := hd
    simp only [List.map_cons, List.nodup_cons] at h
    by_cases hk : k0 = k
    · subst hk
      rw [cfgSet_cons_eq]
      simp only [List.map_cons, List.nodup_cons]
      exact h
    · rw [cfgSet_cons_ne k0 v0 tl k v hk]
      simp only [List.map_cons, List.nodup_cons]
      refine ⟨fun hm => ?_, ih h.2⟩
      rcases mem_keys_cfgSet tl k v k0 hm with h' | h'
      · exact h.1 h'
      · exact hk h'

/-- Removal keeps a sublist of the keys. -/
theorem keys_cfgPop_sublist (c : Config) (k : String) :
    ((cfgPop c k).map Prod.fst).Sublist (c.map Prod.fst) := by
  induction c with
  | nil => simp [cfgPop]
  | cons hd tl ih =>
    obtain ⟨k0, v0⟩ := hd
    by_cases hk : k0 = k
    · subst hk
      rw [cfgPop_cons_eq]
      simp only [List.map_cons]
      exact List.sublist_cons_self _ _
    · rw [cfgPop_cons_ne k0 v0 tl k hk]
      simp only [List.map_cons]
      exact ih.cons₂ k0

/-- Removal keeps the keys unique. -/
theorem nodup_cfgPop (c : Config) (k : String)
    (h : (c.map Prod.fst).Nodup) : ((cfgPop c k).map Prod.fst).Nodup :=
  h.sublist (keys_cfgPop_sublist c k)

/-! ## Claim theorems -/

/-- C1: when litres is missing and percent and capacity are both
positive, litres is computed as `capacity * percent / 100` rounded to
one decimal place, percent symmetrically as `litres / capacity * 100`
rounded to one decimal place, and capacity as `litres / (percent/100)`
(rounded to an integer); in particular a page with percent scraped as
45, no litres found, and caller-supplied capacity 1000 yields a
Measurement with litres 450, percent 45, capacity 1000 and level name
"Medium", whatever capacity the page itself showed. -/
theorem c1_cross_derivation :
    (∀ sc : ℚ, extract_tank_data_final 1000 45 0 sc =
      some ⟨450, 45, 1000, "Medium"⟩) ∧
    (∀ c p : ℚ, 0 < p → 0 < c →
      derivedLitres c p 0 = pyRound 1 (c * p / 100)) ∧
    (∀ c l : ℚ, 0 < l → 0 < c →
      derivedPercent c 0 l = pyRound 1 (l / c * 100)) ∧
    (∀ p l : ℚ, 0 < l → 0 < p →
      derivedCapacity 0 p l = pyRound 0 (l / (p / 100))) := by
  refine ⟨?_, ?_, ?_, ?_⟩
  · intro sc
    norm_num [extract_tank_data_final, finalCapacity, derivedLitres,
      derivedPercent, derivedCapacity, pyRound, roundHalfEven, ratFloor]
  · intro c p hp hc
    simp [derivedLitres, hp, hc]
  · intro c l hl hc
    simp [derivedPercent, hl, hc]
  · intro p l hl hp
    simp [derivedCapacity, hl, hp]

/-- Witness for C1: the three derivation clauses applied at concrete
positive inputs. -/
theorem c1_cross_derivation_witness :
    derivedLitres 1000 45 0 = pyRound 1 (1000 * 45 / 100) ∧
    derivedPercent 1000 0 450 = pyRound 1 (450 / 1000 * 100) ∧
    derivedCapacity 0 45 450 = pyRound 0 (450 / (45 / 100)) :=
  ⟨c1_cross_derivation.2.1 1000 45 (by norm_num) (by norm_num),
   c1_cross_derivation.2.2.1 1000 450 (by norm_num) (by norm_num),
   c1_cross_derivation.2.2.2 45 450 (by norm_num) (by norm_num)⟩

/-- C2: the page classifier returns one of exactly four categories, is
a deterministic function of the lower-cased text (hence
case-insensitive), checks the challenge indicators before the login
indicators (a page with both is classified "captcha"), and classifies
the concrete text "You are a human — captcha challenge" plus
"user[email]" as "captcha" even though a login marker is present. -/
theorem c2_page_classifier :
    (∀ html : List Char,
      detect_page_type html = "captcha" ∨ detect_page_type html = "login" ∨
      detect_page_type html = "tank" ∨ detect_page_type html = "unknown") ∧
    (∀ h1 h2 : List Char, lowerStr h1 = lowerStr h2 →
      detect_page_type h1 = detect_page_type h2) ∧
    (∀ html : List Char,
      CAPTCHA_INDICATORS.any (fun ind => hasSub ind (lowerStr html)) = true →
      detect_page_type html = "captcha") ∧
    (∀ html : List Char,
      CAPTCHA_INDICATORS.any (fun ind => hasSub ind (lowerStr html)) = false →
      LOGIN_INDICATORS.any (fun ind => hasSub ind (lowerStr html)) = true →
      detect_page_type html = "login") ∧
    detect_page_type ("You are a human — captcha challenge user[email]".toList) =
      "captcha" ∧
    LOGIN_INDICATORS.any (fun ind =>
      hasSub ind (lowerStr ("You are a human — captcha challenge user[email]".toList))) =
      true := by
  refine ⟨?_, ?_, ?_, ?_, by decide, by decide⟩
  · intro html
    unfold detect_page_type
    dsimp only
    split_ifs <;> simp
  · intro h1 h2 hh
    unfold detect_page_type
    rw [hh]
  · intro html hc
    unfold detect_page_type
    rw [if_pos hc]
  · intro html hc hl
    unfold detect_page_type
    rw [if_neg (by simp [hc]), if_pos hl]

/-- Witness for C2: the priority clauses applied to concrete texts. -/
theorem c2_page_classifier_witness :
    detect_page_type ("captcha".toList) = "captcha" ∧
    detect_page_type ("sign in".toList) = "login" :=
  ⟨c2_page_classifier.2.2.1 ("captcha".toList) (by decide),
   c2_page_classifier.2.2.2.1 ("sign in".toList) (by decide) (by decide)⟩

/-- C3: the extraction pipeline's final stage returns a Measurement
exactly when, after derivation, litres or percent is positive; and with
neither a scraped percent nor scraped litres it returns none for every
caller-supplied and scraped capacity, however positive. -/
theorem c3_success_condition :
    (∀ uc p l sc : ℚ,
      (extract_tank_data_final uc p l sc).isSome ↔
        (0 < derivedLitres (finalCapacity uc sc) p l ∨
         0 < derivedPercent (finalCapacity uc sc) p
               (derivedLitres (finalCapacity uc sc) p l))) ∧
    (∀ uc sc : ℚ, extract_tank_data_final uc 0 0 sc = none) := by
  constructor
  · intro uc p l sc
    unfold extract_tank_data_final
    dsimp only
    by_cases hpos : derivedLitres (finalCapacity uc sc) p l > 0 ∨
        derivedPercent (finalCapacity uc sc) p (derivedLitres (finalCapacity uc sc) p l) > 0
    · rw [if_pos hpos]
      simpa using hpos
    · rw [if_neg hpos]
      simpa using hpos
  · intro uc sc
    unfold extract_tank_data_final
    norm_num [derivedLitres, derivedPercent]

/-- C4: the level name attached to every Measurement the pipeline
returns is a pure function of its percent, and that function is
exactly "High" iff percent ≥ 60, "Medium" iff 30 ≤ percent < 60 and
"Low" iff percent < 30. -/
theorem c4_level_name :
    (∀ p : ℚ,
      (level_name_of p = "High" ↔ 60 ≤ p) ∧
      (level_name_of p = "Medium" ↔ 30 ≤ p ∧ p < 60) ∧
      (level_name_of p = "Low" ↔ p < 30)) ∧
    (∀ (uc p l sc : ℚ) (td : TankData),
      extract_tank_data_final uc p l sc = some td →
      td.level_name = level_name_of td.percent) := by
  constructor
  · intro p
    unfold level_name_of
    split_ifs with h1 h2
    · refine ⟨⟨fun _ => h1, fun _ => rfl⟩, ⟨fun h => ?_, fun h => ?_⟩,
        ⟨fun h => ?_, fun h => ?_⟩⟩
      · exact absurd h (by decide)
      · linarith [h.2]
      · exact absurd h (by decide)
      · linarith
    · refine ⟨⟨fun h => ?_, fun h => ?_⟩, ⟨fun _ => ⟨h2, lt_of_not_le h1⟩,
        fun _ => rfl⟩, ⟨fun h => ?_, fun h => ?_⟩⟩
      · exact absurd h (by decide)
      · exact absurd h h1
      · exact absurd h (by decide)
      · linarith
    · refine ⟨⟨fun h => ?_, fun h => ?_⟩, ⟨fun h => ?_, fun h => ?_⟩,
        ⟨fun _ => lt_of_not_le h2, fun _ => rfl⟩⟩
      · exact absurd h (by decide)
      · exact absurd h h1
      · exact absurd h (by decide)
      · exact absurd h.1 h2
  · intro uc p l sc td h
    unfold extract_tank_data_final at h
    dsimp only at h
    by_cases hpos : derivedLitres (finalCapacity uc sc) p l > 0 ∨
        derivedPercent (finalCapacity uc sc) p (derivedLitres (finalCapacity uc sc) p l) > 0
    · rw [if_pos hpos] at h
      injection h with h2
      subst h2
      rfl
    · rw [if_neg hpos] at h
      simp at h

/-- Witness for C4: the pipeline's concrete Medium measurement carries
the level name computed from its percent. -/
theorem c4_level_name_witness :
    (⟨450, 45, 1000, "Medium"⟩ : TankData).level_name =
      level_name_of (⟨450, 45, 1000, "Medium"⟩ : TankData).percent :=
  c4_level_name.2 1000 45 0 0 ⟨450, 45, 1000, "Medium"⟩
    (by norm_num [extract_tank_data_final, finalCapacity, derivedLitres,
      derivedPercent, derivedCapacity, pyRound, roundHalfEven, ratFloor])

/-- C5: one append equals dropping the overflow from the front of the
old log and putting the new entry last (so eviction is oldest-first and
the remaining order is preserved); a single append never leaves more
than the cap of 500 entries, and any sequence of appends starting from
the empty log stays within the cap. -/
theorem c5_history_cap :
    (∀ (h : List TankData) (m : TankData),
      save_history h m = h.drop (h.length + 1 - 500) ++ [m]) ∧
    (∀ (h : List TankData) (m : TankData), (save_history h m).length ≤ 500) ∧
    (∀ ms : List TankData, (List.foldl save_history [] ms).length ≤ 500) := by
  refine ⟨save_history_eq, save_history_length_le, ?_⟩
  have key : ∀ (ms : List TankData) (acc : List TankData), acc.length ≤ 500 →
      (List.foldl save_history acc ms).length ≤ 500 := by
    intro ms
    induction ms with
    | nil => intro acc hacc; simpa using hacc
    | cons m rest ih =>
      intro acc _
      exact ih (save_history acc m) (save_history_length_le acc m)
  intro ms
  exact key ms [] (by simp)

/-- C7: filling credentials is gated on the current classification —
"captcha" fails with the challenge-unresolved result and no cookie
save, any other non-login page fails with the unexpected-page result
carrying the detected type, and only the login path saves cookies,
re-classifies, and reports the caller logged in exactly when the new
classification is neither "captcha" nor "login". -/
theorem c7_auth_fill_gating :
    ∀ html newHtml : List Char,
      (detect_page_type html = "captcha" →
        auth_fill_login html newHtml =
          { result := .challengeUnresolved, cookiesSaved := false }) ∧
      (detect_page_type html ≠ "captcha" → detect_page_type html ≠ "login" →
        auth_fill_login html newHtml =
          { result := .unexpectedPage (detect_page_type html), cookiesSaved := false }) ∧
      (detect_page_type html = "login" →
        auth_fill_login html newHtml =
          { result := .submitted (!(detect_page_type newHtml == "captcha" ||
              detect_page_type newHtml == "login")),
            cookiesSaved := true }) ∧
      ((!(detect_page_type newHtml == "captcha" ||
          detect_page_type newHtml == "login")) = true ↔
        (detect_page_type newHtml ≠ "captcha" ∧ detect_page_type newHtml ≠ "login")) := by
  intro html newHtml
  refine ⟨?_, ?_, ?_, ?_⟩
  · intro hc
    unfold auth_fill_login
    rw [if_pos hc]
  · intro hc hl
    unfold auth_fill_login
    rw [if_neg hc, if_pos hl]
  · intro hl
    unfold auth_fill_login
    rw [hl]
    simp
  · simp [not_or]

/-- Witness for C7: on a page containing only the login marker
"user[email]", submitting and landing on a tank page reports
logged in and saves cookies. -/
theorem c7_auth_fill_gating_witness :
    auth_fill_login ("user[email]".toList) ("your tank level".toList) =
      { result := .submitted true, cookiesSaved := true } := by
  rw [(c7_auth_fill_gating ("user[email]".toList) ("your tank level".toList)).2.2.1
    (by decide)]
  decide

/-- C8 counterexample: in the text "150% 50%" the value 50 lies in
(0, 100] and is matched by the bare percent pattern at a later
position, yet the fallback finds nothing, because each pattern only
ever contributes its leftmost match (here 150, which is rejected). -/
theorem c8_counterexample :
    percentSignAt ("50%".toList) = some (50, 0) ∧
    ("50%".toList <:+ lowerStr ("150% 50%".toList)) ∧
    (0 < decNumVal (50, 0) ∧ decNumVal (50, 0) ≤ 100) ∧
    extract_percent_from_text ("150% 50%".toList) = none := by
  refine ⟨by decide, by decide, by norm_num [decNumVal], by decide⟩

/-- C8 (amended): the patterns are tried in order, most specific first,
each contributing only its leftmost match; an accepted value always
lies in (0, 100]; the result is the first pattern in order whose
leftmost match lies in (0, 100]: the percent-sign pattern's in-range
leftmost match is always accepted, a pattern contributes nothing
exactly when it has no match at all or its leftmost match is out of
range, in which case the keyword pattern's in-range leftmost match is
accepted, and when neither pattern contributes the fallback returns
nothing (the bare third pattern repeats the first) — so an in-range
value occurring under a pattern whose leftmost match is out of range
is not found. -/
theorem c8_percent_fallback :
    (∀ (t : List Char) (v : DecNum), extract_percent_from_text t = some v →
      0 < decNumVal v ∧ decNumVal v ≤ 100) ∧
    (∀ (t : List Char) (v : DecNum),
      reSearch percentSignAt (lowerStr t) = some v →
      0 < decNumVal v → decNumVal v ≤ 100 →
      extract_percent_from_text t = some v) ∧
    (∀ (pat : List Char → Option DecNum) (t : List Char),
      tryPct pat t = none ↔
        (reSearch pat t = none ∨
         ∃ w : DecNum, reSearch pat t = some w ∧
           ¬(0 < decNumVal w ∧ decNumVal w ≤ 100))) ∧
    (∀ (t : List Char) (v : DecNum),
      tryPct percentSignAt (lowerStr t) = none →
      reSearch levelKeywordAt (lowerStr t) = some v →
      0 < decNumVal v → decNumVal v ≤ 100 →
      extract_percent_from_text t = some v) ∧
    (∀ t : List Char,
      tryPct percentSignAt (lowerStr t) = none →
      tryPct levelKeywordAt (lowerStr t) = none →
      extract_percent_from_text t = none) := by
  refine ⟨?_, ?_, ?_, ?_, ?_⟩
  · intro t v h
    have hg : decGuard v = true := by
      unfold extract_percent_from_text at h
      dsimp only at h
      cases h1 : tryPct percentSignAt (lowerStr t) with
      | some w =>
        rw [h1] at h
        injection h with h2
        subst h2
        exact tryPct_sound _ _ _ h1
      | none =>
        rw [h1] at h
        dsimp only at h
        cases h2 : tryPct levelKeywordAt (lowerStr t) with
        | some w =>
          rw [h2] at h
          injection h with h3
          subst h3
          exact tryPct_sound _ _ _ h2
        | none =>
          rw [h2] at h
          dsimp only at h
          exact absurd h (by simp)
    exact (decGuard_iff v).mp hg
  · intro t v hs h1 h2
    have hg : decGuard v = true := (decGuard_iff v).mpr ⟨h1, h2⟩
    unfold extract_percent_from_text
    dsimp only
    rw [show tryPct percentSignAt (lowerStr t) = some v by
      unfold tryPct; rw [hs]; dsimp only; rw [if_pos hg]]
  · intro pat t
    unfold tryPct
    cases hr : reSearch pat t with
    | none => simp
    | some w =>
      dsimp only
      by_cases hg : decGuard w = true
      · rw [if_pos hg]
        constructor
        · intro h
          exact absurd h (by simp)
        · rintro (h | ⟨w2, hw2, hng⟩)
          · exact absurd h (by simp)
          · injection hw2 with h2
            subst h2
            exact absurd ((decGuard_iff w).mp hg) hng
      · rw [if_neg hg]
        constructor
        · intro _
          exact Or.inr ⟨w, rfl, fun hp => hg ((decGuard_iff w).mpr hp)⟩
        · intro _
          rfl
  · intro t v hnone hs2 h1 h2
    have hg : decGuard v = true := (decGuard_iff v).mpr ⟨h1, h2⟩
    unfold extract_percent_from_text
    dsimp only
    rw [hnone]
    dsimp only
    rw [show tryPct levelKeywordAt (lowerStr t) = some v by
      unfold tryPct; rw [hs2]; dsimp only; rw [if_pos hg]]
  · intro t h1 h2
    unfold extract_percent_from_text
    dsimp only
    rw [h1]
    dsimp only
    rw [h2]

/-- Witness for C8: on "45% full" the first pattern's leftmost match 45
is in range and accepted; on "150% level: 50" the first pattern's
leftmost match 150 is out of range, so it contributes nothing and the
keyword pattern's in-range leftmost match 50 is accepted. -/
theorem c8_percent_fallback_witness :
    extract_percent_from_text ("45% full".toList) = some (45, 0) ∧
    extract_percent_from_text ("150% level: 50".toList) = some (50, 0) :=
  ⟨c8_percent_fallback.2.1 ("45% full".toList) (45, 0) (by decide)
     (by norm_num [decNumVal]) (by norm_num [decNumVal]),
   c8_percent_fallback.2.2.2.1 ("150% level: 50".toList) (50, 0) (by decide)
     (by decide) (by norm_num [decNumVal]) (by norm_num [decNumVal])⟩

/-- C9: an exception in a poll-loop iteration never stops the loop —
it continues after the 300-second backoff (longer than the 60-second
short backoff); the loop stops only on cancellation; every
non-stopping iteration is followed by the processing of the next
event, in particular after a failure. -/
theorem c9_poll_loop_survives :
    auto_refresh_step .failure = .continueAfter 300 ∧
    (∀ e : PollEvent, auto_refresh_step e = .stop ↔ e = .cancelled) ∧
    (∀ (e : PollEvent) (es : List PollEvent), auto_refresh_step e ≠ .stop →
      auto_refresh_iterations (e :: es) = 1 + auto_refresh_iterations es) ∧
    (∀ es : List PollEvent,
      auto_refresh_iterations (PollEvent.failure :: es) =
        1 + auto_refresh_iterations es) := by
  refine ⟨rfl, ?_, ?_, ?_⟩
  · intro e
    cases e with
    | normal interval tank_id fetch_success =>
      simp only [auto_refresh_step]
      split_ifs <;> simp
    | cancelled => simp [auto_refresh_step]
    | failure => simp [auto_refresh_step]
  · intro e es hne
    cases hstep : auto_refresh_step e with
    | stop => exact absurd hstep hne
    | continueAfter s => simp only [auto_refresh_iterations, hstep]
  · intro es
    simp only [auto_refresh_iterations, auto_refresh_step]

/-- Witness for C9: a failing iteration followed by the empty tail is
still counted and does not stop the loop. -/
theorem c9_poll_loop_survives_witness :
    auto_refresh_iterations [PollEvent.failure] =
      1 + auto_refresh_iterations [] :=
  c9_poll_loop_survives.2.2.1 .failure [] (by decide)

/-- C10 counterexample: a stored configuration can itself contain the
key "success" (it is distinct from the password keys and their flags),
and the endpoint overwrites it with the boolean `true` status flag, so
not every non-password key is returned unchanged. -/
theorem c10_counterexample :
    ("success" ≠ "password" ∧ ("success" : String) ≠ "mqtt_password" ∧
     ("success" : String) ≠ "has_password" ∧
     ("success" : String) ≠ "has_mqtt_password") ∧
    (([("success", JVal.str "x")] : Config).map Prod.fst).Nodup ∧
    cfgGet (api_get_config [("success", JVal.str "x")]) "success" ≠
      cfgGet [("success", JVal.str "x")] "success" := by
  refine ⟨by decide, by decide, by decide⟩

/-- C10 (amended): for every stored configuration with unique keys the
read endpoint's response never contains the password or mqtt_password
keys, carries `has_password` as the password's truthiness,
carries `has_mqtt_password = true` whenever an MQTT password is set,
and returns every other configuration key unchanged — except the key
"success", which is overwritten by the boolean `true` status flag. -/
theorem c10_config_masking :
    ∀ config : Config, (config.map Prod.fst).Nodup →
      cfgGet (api_get_config config) "password" = none ∧
      cfgGet (api_get_config config) "mqtt_password" = none ∧
      cfgGet (api_get_config config) "has_password" =
        some (.bool (truthy (cfgGet config "password"))) ∧
      (truthy (cfgGet config "mqtt_password") = true →
        cfgGet (api_get_config config) "has_mqtt_password" = some (.bool true)) ∧
      (∀ k : String, k ≠ "password" → k ≠ "mqtt_password" → k ≠ "has_password" →
        k ≠ "has_mqtt_password" → k ≠ "success" →
        cfgGet (api_get_config config) k = cfgGet config k) := by
  intro config hnd
  have hnd1 : ((cfgSet config "has_password"
      (.bool (truthy (cfgGet config "password")))).map Prod.fst).Nodup :=
    nodup_cfgSet config _ _ hnd
  have hnd2 : ((cfgPop (cfgSet config "has_password"
      (.bool (truthy (cfgGet config "password")))) "password").map Prod.fst).Nodup :=
    nodup_cfgPop _ _ hnd1
  unfold api_get_config
  dsimp only
  refine ⟨?_, ?_, ?_, ?_, ?_⟩
  · rw [cfgGet_cfgSet_ne _ _ _ _ (by decide)]
    split_ifs with hmq
    · rw [cfgGet_cfgSet_ne _ _ _ _ (by decide)]
      rw [cfgGet_cfgPop_ne _ _ _ (by decide)]
      exact cfgGet_cfgPop_self _ _ hnd1
    · rw [cfgGet_cfgPop_ne _ _ _ (by decide)]
      exact cfgGet_cfgPop_self _ _ hnd1
  · rw [cfgGet_cfgSet_ne _ _ _ _ (by decide)]
    split_ifs with hmq
    · rw [cfgGet_cfgSet_ne _ _ _ _ (by decide)]
      exact cfgGet_cfgPop_self _ _ hnd2
    · exact cfgGet_cfgPop_self _ _ hnd2
  · rw [cfgGet_cfgSet_ne _ _ _ _ (by decide)]
    split_ifs with hmq
    · rw [cfgGet_cfgSet_ne _ _ _ _ (by decide)]
      rw [cfgGet_cfgPop_ne _ _ _ (by decide)]
      rw [cfgGet_cfgPop_ne _ _ _ (by decide)]
      exact cfgGet_cfgSet_self _ _ _
    · rw [cfgGet_cfgPop_ne _ _ _ (by decide)]
      rw [cfgGet_cfgPop_ne _ _ _ (by decide)]
      exact cfgGet_cfgSet_self _ _ _
  · intro hmq
    rw [cfgGet_cfgSet_ne _ _ _ _ (by decide)]
    rw [if_pos hmq]
    exact cfgGet_cfgSet_self _ _ _
  · intro k hk1 hk2 hk3 hk4 hk5
    rw [cfgGet_cfgSet_ne _ _ _ _ (fun hh => hk5 hh.symm)]
    split_ifs with hmq
    · rw [cfgGet_cfgSet_ne _ _ _ _ (fun hh => hk4 hh.symm)]
      rw [cfgGet_cfgPop_ne _ _ _ (fun hh => hk2 hh.symm)]
      rw [cfgGet_cfgPop_ne _ _ _ (fun hh => hk1 hh.symm)]
      exact cfgGet_cfgSet_ne _ _ _ _ (fun hh => hk3 hh.symm)
    · rw [cfgGet_cfgPop_ne _ _ _ (fun hh => hk2 hh.symm)]
      rw [cfgGet_cfgPop_ne _ _ _ (fun hh => hk1 hh.symm)]
      exact cfgGet_cfgSet_ne _ _ _ _ (fun hh => hk3 hh.symm)

/-- Witness for C10: a concrete two-key configuration has its password
key removed by the endpoint. -/
theorem c10_config_masking_witness :
    cfgGet (api_get_config [("email", JVal.str "a"), ("password", JVal.str "p")])
      "password" = none :=
  (c10_config_masking [("email", JVal.str "a"), ("password", JVal.str "p")]
    (by decide)).1

end BoilerJuice
